import Mathlib

/-!
Verification of the columnar materialization engine in `hello/src/lib.rs`.

The source materializes a `Quotes` value (a `HashMap<String, QuotesData>`) into a
polars `DataFrame` with a fixed 20-column schema, via six strategy functions, plus
a schema-driven JSON decoding path.  This file shallowly embeds the data model and
the strategies and proves the spec's claims about them.

Modelling conventions:
* A `HashMap` is embedded as an association list `List (String × QuotesData)` in
  iteration order.  Every strategy in the source iterates `quote.instruments` in
  that (unspecified) order; two lists that are permutations of each other model
  the same map observed under two iteration orders.
* `f64` values are only ever copied verbatim by this code (no arithmetic), so they
  are modelled by their 64-bit payload as a `Nat` (`F64`).
* `u64` fields are modelled as `Nat`; nothing in the engine can overflow because
  values are only copied.  Where the 64-bit width matters (the serde decode
  boundary of `last_quantity`, claim C9) the range check is explicit.
* polars `Series` / `DataFrame` construction is embedded with the checks the
  library performs on these code paths: duplicate column names, mismatched column
  lengths, and (for the `AnyValue` based paths) strict dtype coercion.
-/

/-- The 64-bit float payload; only ever copied verbatim by the engine. -/
abbrev F64 := Nat

/-- `OhlcInner` (lib.rs lines 98-104).  The Rust field `open` is a Lean keyword,
hence `open_`. -/
structure OhlcInner where
  open_ : F64
  high : F64
  low : F64
  close : F64
  deriving DecidableEq, Inhabited

/-- `OrderDepth` (lib.rs lines 91-96). -/
structure OrderDepth where
  price : F64
  quantity : Nat
  orders : Nat
  deriving DecidableEq, Inhabited

/-- `Depth` (lib.rs lines 85-89). -/
structure Depth where
  buy : List OrderDepth
  sell : List OrderDepth
  deriving DecidableEq, Inhabited

/-- `QuotesData` (lib.rs lines 35-54): the bulk/batch per-instrument record
consumed by the materializer strategies.  `timestamp` and `last_trade_time` are
mandatory `String`s here; `last_quantity` is `u64`. -/
structure QuotesData where
  instrument_token : Nat
  timestamp : String
  last_trade_time : String
  last_price : F64
  last_quantity : Nat
  buy_quantity : Nat
  sell_quantity : Nat
  volume : Nat
  average_price : F64
  oi : Nat
  oi_day_high : Nat
  oi_day_low : Nat
  net_change : F64
  lower_circuit_limit : F64
  upper_circuit_limit : F64
  ohlc : OhlcInner
  depth : Depth
  deriving DecidableEq, Inhabited

/-- `chrono::NaiveDateTime` is only carried, never inspected, by the code under
verification; modelled as an abstract payload. -/
abbrev NaiveDateTime := Nat

/-- `QuoteData` (lib.rs lines 56-83): the per-record decoded form.  `timestamp`
and `last_trade_time` are `Option<NaiveDateTime>` here and `last_quantity` is
`i64` (signed), unlike the bulk form `QuotesData`. -/
structure QuoteData where
  instrument_token : Nat
  timestamp : Option NaiveDateTime
  last_trade_time : Option NaiveDateTime
  last_price : F64
  last_quantity : Int
  buy_quantity : Nat
  sell_quantity : Nat
  volume : Nat
  average_price : F64
  oi : Nat
  oi_day_high : Nat
  oi_day_low : Nat
  net_change : F64
  lower_circuit_limit : F64
  upper_circuit_limit : F64
  ohlc : OhlcInner
  depth : Depth
  deriving DecidableEq, Inhabited

/-- `Quotes` (lib.rs lines 29-33): the flattened map from symbol to record,
embedded as an association list in iteration order. -/
structure Quotes where
  instruments : List (String × QuotesData)
  deriving DecidableEq, Inhabited

/-- The polars dtypes used by this engine (plus the ones schema inference can
produce on the JSON path). -/
inductive DType where
  | string
  | uint64
  | int64
  | float64
  | boolean
  | null
  deriving DecidableEq, Inhabited

/-- A cell value (`polars::AnyValue` restricted to the variants this engine
produces: `Null`, `StringOwned`, `UInt64`, `Float64`). -/
inductive Value where
  | null
  | str (s : String)
  | u64 (n : Nat)
  | f64 (x : F64)
  deriving DecidableEq, Inhabited

/-- The polars error kinds reachable from the embedded code paths. -/
inductive PolarsError where
  | duplicate
  | shapeMismatch
  | typeMismatch
  deriving DecidableEq, Inhabited

/-- A polars `Series`: a named, dtyped column of values. -/
structure Series where
  name : String
  dtype : DType
  values : List Value
  deriving DecidableEq, Inhabited

/-- `Series::new` instantiated at `Vec<String>`. -/
def Series.ofStrings (name : String) (xs : List String) : Series :=
  ⟨name, .string, xs.map Value.str⟩

/-- `Series::new` instantiated at `Vec<u64>`. -/
def Series.ofU64 (name : String) (xs : List Nat) : Series :=
  ⟨name, .uint64, xs.map Value.u64⟩

/-- `Series::new` instantiated at `Vec<f64>`. -/
def Series.ofF64 (name : String) (xs : List F64) : Series :=
  ⟨name, .float64, xs.map Value.f64⟩

/-- A polars `DataFrame`: an ordered list of columns. -/
structure DataFrame where
  columns : List Series
  deriving DecidableEq, Inhabited

/-- The row count of a `DataFrame` (the length of its first column, 0 if there
are no columns), as polars defines `height`. -/
def DataFrame.height (df : DataFrame) : Nat :=
  (df.columns.headD default).values.length

/-- Boolean no-duplicates check on column names. -/
def nodupBool : List String → Bool
  | [] => true
  | x :: xs => !(xs.contains x) && nodupBool xs

/-- Boolean check that every column has the height of the first column. -/
def allSameLength (cols : List Series) : Bool :=
  cols.all (fun c => c.values.length == (cols.headD default).values.length)

/-- `DataFrame::new` (polars): fails on duplicate column names or on columns of
differing lengths, otherwise assembles the frame. -/
def DataFrame.new (cols : List Series) : Except PolarsError DataFrame :=
  if !(nodupBool (cols.map Series.name)) then .error .duplicate
  else if !(allSameLength cols) then .error .shapeMismatch
  else .ok ⟨cols⟩

/-- Strict coercion of one staged `AnyValue` cell to a declared dtype
(`Series::from_any_values_and_dtype` with `strict = true`): `Null` is accepted
by every dtype, any other value only by its own dtype. -/
def coerceStrict (v : Value) (dt : DType) : Option Value :=
  match v, dt with
  | .null, _ => some .null
  | .str s, .string => some (.str s)
  | .u64 n, .uint64 => some (.u64 n)
  | .f64 x, .float64 => some (.f64 x)
  | _, _ => none

/-- `Series::from_any_values_and_dtype(name, values, dtype, strict)`: coerce
every staged cell to the declared dtype, failing the whole column otherwise. -/
def Series.fromAnyValuesAndDtype (name : String) (vals : List Value) (dt : DType) :
    Except PolarsError Series :=
  match vals.mapM (fun v => coerceStrict v dt) with
  | some out => .ok ⟨name, dt, out⟩
  | none => .error .typeMismatch

/-- A row of staged cells (`polars::frame::row::Row`). -/
abbrev Row := List Value

/-- The fixed 20-entry schema (lib.rs lines 619-640 and 654-675). -/
def schemaDef : List (String × DType) :=
  [("symbol", .string), ("instrument_token", .uint64), ("timestamp", .string),
   ("last_trade_time", .string), ("last_price", .float64), ("last_quantity", .uint64),
   ("buy_quantity", .uint64), ("sell_quantity", .uint64), ("volume", .uint64),
   ("average_price", .float64), ("oi", .uint64), ("oi_day_high", .uint64),
   ("oi_day_low", .uint64), ("net_change", .float64), ("lower_circuit_limit", .float64),
   ("upper_circuit_limit", .float64), ("open", .float64), ("high", .float64),
   ("low", .float64), ("close", .float64)]

/-- Column-by-column transpose kernel of `DataFrame::from_rows_and_schema`:
for schema entry `j` (counting from the starting offset), coerce cell `j` of
every row to the declared dtype, failing on the first impossible cell. -/
def buildCols (rows : List Row) : List (String × DType) → Nat → Except PolarsError (List Series)
  | [], _ => .ok []
  | (nm, dt) :: rest, j => do
    let vals ← rows.mapM (fun r =>
      match coerceStrict (r.getD j Value.null) dt with
      | some v => Except.ok v
      | none => Except.error PolarsError.typeMismatch)
    let cols ← buildCols rows rest (j + 1)
    .ok (⟨nm, dt, vals⟩ :: cols)

/-- `DataFrame::from_rows_and_schema`: transpose the staged rows against the
declared schema, then assemble the frame. -/
def DataFrame.fromRowsAndSchema (rows : List Row) (schema : List (String × DType)) :
    Except PolarsError DataFrame := do
  let cols ← buildCols rows schema 0
  DataFrame.new cols

/-- The 19 staged cells a record contributes to its row, in schema order
(everything except the symbol, which comes from the map key). -/
def recordCells (q : QuotesData) : List Value :=
  [.u64 q.instrument_token, .str q.timestamp, .str q.last_trade_time, .f64 q.last_price,
   .u64 q.last_quantity, .u64 q.buy_quantity, .u64 q.sell_quantity, .u64 q.volume,
   .f64 q.average_price, .u64 q.oi, .u64 q.oi_day_high, .u64 q.oi_day_low, .f64 q.net_change,
   .f64 q.lower_circuit_limit, .f64 q.upper_circuit_limit, .f64 q.ohlc.open_, .f64 q.ohlc.high,
   .f64 q.ohlc.low, .f64 q.ohlc.close]

/-- The schema-aligned row of one map entry: the symbol key followed by the 19
record cells. -/
def mkRow (p : String × QuotesData) : Row :=
  .str p.1 :: recordCells p.2

/-- The canonical column list every strategy is proved to produce: for each
schema entry, the column of that field across the input entries, in iteration
order. -/
def canonCols (l : List (String × QuotesData)) : List Series :=
  [⟨"symbol", .string, l.map (fun p => Value.str p.1)⟩,
   ⟨"instrument_token", .uint64, l.map (fun p => Value.u64 p.2.instrument_token)⟩,
   ⟨"timestamp", .string, l.map (fun p => Value.str p.2.timestamp)⟩,
   ⟨"last_trade_time", .string, l.map (fun p => Value.str p.2.last_trade_time)⟩,
   ⟨"last_price", .float64, l.map (fun p => Value.f64 p.2.last_price)⟩,
   ⟨"last_quantity", .uint64, l.map (fun p => Value.u64 p.2.last_quantity)⟩,
   ⟨"buy_quantity", .uint64, l.map (fun p => Value.u64 p.2.buy_quantity)⟩,
   ⟨"sell_quantity", .uint64, l.map (fun p => Value.u64 p.2.sell_quantity)⟩,
   ⟨"volume", .uint64, l.map (fun p => Value.u64 p.2.volume)⟩,
   ⟨"average_price", .float64, l.map (fun p => Value.f64 p.2.average_price)⟩,
   ⟨"oi", .uint64, l.map (fun p => Value.u64 p.2.oi)⟩,
   ⟨"oi_day_high", .uint64, l.map (fun p => Value.u64 p.2.oi_day_high)⟩,
   ⟨"oi_day_low", .uint64, l.map (fun p => Value.u64 p.2.oi_day_low)⟩,
   ⟨"net_change", .float64, l.map (fun p => Value.f64 p.2.net_change)⟩,
   ⟨"lower_circuit_limit", .float64, l.map (fun p => Value.f64 p.2.lower_circuit_limit)⟩,
   ⟨"upper_circuit_limit", .float64, l.map (fun p => Value.f64 p.2.upper_circuit_limit)⟩,
   ⟨"open", .float64, l.map (fun p => Value.f64 p.2.ohlc.open_)⟩,
   ⟨"high", .float64, l.map (fun p => Value.f64 p.2.ohlc.high)⟩,
   ⟨"low", .float64, l.map (fun p => Value.f64 p.2.ohlc.low)⟩,
   ⟨"close", .float64, l.map (fun p => Value.f64 p.2.ohlc.close)⟩]

/-- The canonical table for an input in a given iteration order. -/
def canonDF (l : List (String × QuotesData)) : DataFrame :=
  ⟨canonCols l⟩

theorem new_canon (l : List (String × QuotesData)) :
    DataFrame.new (canonCols l) = .ok (canonDF l) := by
  have h1 : nodupBool ((canonCols l).map Series.name) = true := by rfl
  have h2 : allSameLength (canonCols l) = true := by
    simp [allSameLength, canonCols, List.all_cons]
  simp [DataFrame.new, h1, h2, canonDF]

/-- The enumerated indexed-write pass used by the source's overwrite loops
(`.iter().enumerate().for_each(|(i, _)| buf[i] = ...)` and the
`series_buf[i] = ...` assignments): starting at index `i`, write `f b` into the
scratch list for each successive item `b`. -/
def fillIdxAux (f : β → α) : Nat → List β → List α → List α
  | _, [], acc => acc
  | i, b :: bs, acc => fillIdxAux f (i + 1) bs (acc.set i (f b))

/-- One scratch vector of an enumerated indexed-write pass, starting at index 0. -/
def fillIdx (init : List α) (l : List β) (f : β → α) : List α :=
  fillIdxAux f 0 l init

theorem fillIdxAux_append (f : β → α) :
    ∀ (bs : List β) (acc1 acc2 : List α), bs.length ≤ acc2.length →
      fillIdxAux f acc1.length bs (acc1 ++ acc2) =
        acc1 ++ bs.map f ++ acc2.drop bs.length := by
  intro bs
  induction bs with
  | nil => intro acc1 acc2 _; simp [fillIdxAux]
  | cons b bs ih =>
    intro acc1 acc2 hlen
    cases acc2 with
    | nil => simp at hlen
    | cons c cs =>
      rw [fillIdxAux]
      have hset : (acc1 ++ c :: cs).set acc1.length (f b) = acc1 ++ f b :: cs := by
        rw [List.set_append_right _ _ (Nat.le_refl _)]
        simp
      rw [hset]
      have hlen2 : bs.length ≤ cs.length := by
        simp at hlen; omega
      have happ : acc1 ++ f b :: cs = (acc1 ++ [f b]) ++ cs := by simp
      have hidx : acc1.length + 1 = (acc1 ++ [f b]).length := by simp
      rw [happ, hidx, ih (acc1 ++ [f b]) cs hlen2]
      simp

/-- An indexed-write pass over scratch storage pre-sized to the item count
overwrites every slot: the result is exactly the per-item image list. -/
theorem fillIdx_full (init : List α) (l : List β) (f : β → α)
    (h : init.length = l.length) : fillIdx init l f = l.map f := by
  have h0 : ([] : List α).length = 0 := rfl
  have := fillIdxAux_append f l [] init (by omega)
  rw [h0] at this
  simpa [fillIdx, List.drop_eq_nil_of_le, h] using this

/-- Strategy 1, direct-append (`quote_to_polars_df_from_series_raghu`,
lib.rs lines 132-202): one growable vector per column, one pass over the map
pushing each field, then `DataFrame::new`.  The single push loop is embedded as
one map per scratch vector. -/
def quote_to_polars_df_from_series_raghu (quote : Quotes) : Except PolarsError DataFrame :=
  let l := quote.instruments
  DataFrame.new
    [Series.ofStrings "symbol" (l.map (fun p => p.1)),
     Series.ofU64 "instrument_token" (l.map (fun p => p.2.instrument_token)),
     Series.ofStrings "timestamp" (l.map (fun p => p.2.timestamp)),
     Series.ofStrings "last_trade_time" (l.map (fun p => p.2.last_trade_time)),
     Series.ofF64 "last_price" (l.map (fun p => p.2.last_price)),
     Series.ofU64 "last_quantity" (l.map (fun p => p.2.last_quantity)),
     Series.ofU64 "buy_quantity" (l.map (fun p => p.2.buy_quantity)),
     Series.ofU64 "sell_quantity" (l.map (fun p => p.2.sell_quantity)),
     Series.ofU64 "volume" (l.map (fun p => p.2.volume)),
     Series.ofF64 "average_price" (l.map (fun p => p.2.average_price)),
     Series.ofU64 "oi" (l.map (fun p => p.2.oi)),
     Series.ofU64 "oi_day_high" (l.map (fun p => p.2.oi_day_high)),
     Series.ofU64 "oi_day_low" (l.map (fun p => p.2.oi_day_low)),
     Series.ofF64 "net_change" (l.map (fun p => p.2.net_change)),
     Series.ofF64 "lower_circuit_limit" (l.map (fun p => p.2.lower_circuit_limit)),
     Series.ofF64 "upper_circuit_limit" (l.map (fun p => p.2.upper_circuit_limit)),
     Series.ofF64 "open" (l.map (fun p => p.2.ohlc.open_)),
     Series.ofF64 "high" (l.map (fun p => p.2.ohlc.high)),
     Series.ofF64 "low" (l.map (fun p => p.2.ohlc.low)),
     Series.ofF64 "close" (l.map (fun p => p.2.ohlc.close))]

/-- The 20 final series of the append pass, in slot order; shared by the
strategies that overwrite a pre-filled series buffer slot by slot
(`series_buf[0] = ...` .. `series_buf[19] = ...` in v0 and v3). -/
def finalSeries (l : List (String × QuotesData)) : List Series :=
  [Series.ofStrings "symbol" (l.map (fun p => p.1)),
   Series.ofU64 "instrument_token" (l.map (fun p => p.2.instrument_token)),
   Series.ofStrings "timestamp" (l.map (fun p => p.2.timestamp)),
   Series.ofStrings "last_trade_time" (l.map (fun p => p.2.last_trade_time)),
   Series.ofF64 "last_price" (l.map (fun p => p.2.last_price)),
   Series.ofU64 "last_quantity" (l.map (fun p => p.2.last_quantity)),
   Series.ofU64 "buy_quantity" (l.map (fun p => p.2.buy_quantity)),
   Series.ofU64 "sell_quantity" (l.map (fun p => p.2.sell_quantity)),
   Series.ofU64 "volume" (l.map (fun p => p.2.volume)),
   Series.ofF64 "average_price" (l.map (fun p => p.2.average_price)),
   Series.ofU64 "oi" (l.map (fun p => p.2.oi)),
   Series.ofU64 "oi_day_high" (l.map (fun p => p.2.oi_day_high)),
   Series.ofU64 "oi_day_low" (l.map (fun p => p.2.oi_day_low)),
   Series.ofF64 "net_change" (l.map (fun p => p.2.net_change)),
   Series.ofF64 "lower_circuit_limit" (l.map (fun p => p.2.lower_circuit_limit)),
   Series.ofF64 "upper_circuit_limit" (l.map (fun p => p.2.upper_circuit_limit)),
   Series.ofF64 "open" (l.map (fun p => p.2.ohlc.open_)),
   Series.ofF64 "high" (l.map (fun p => p.2.ohlc.high)),
   Series.ofF64 "low" (l.map (fun p => p.2.ohlc.low)),
   Series.ofF64 "close" (l.map (fun p => p.2.ohlc.close))]

/-- Strategy 2, placeholder-then-overwrite (`quote_to_polars_df_from_series_v0`,
lib.rs lines 204-279): push 20 placeholder series (each a `u64` column of
zeros named "symbol"), run the same append pass as strategy 1, then overwrite
the 20 slots of the series buffer in place (an indexed-write pass over the
buffer) before `DataFrame::new`. -/
def quote_to_polars_df_from_series_v0 (quote : Quotes) : Except PolarsError DataFrame :=
  let l := quote.instruments
  let len := l.length
  let series_buf0 : List Series :=
    List.replicate 20 (Series.ofU64 "symbol" (List.replicate len 0))
  let series_buf := fillIdx series_buf0 (finalSeries l) (fun s => s)
  DataFrame.new series_buf

/-- Strategy 3, indexed-write (`quote_to_polars_df_from_series_v1`,
lib.rs lines 281-354): pre-size every scratch vector to the row count with
default values, then a single enumerated pass writes each record's fields at
its enumeration index; the pass is embedded per scratch vector via `fillIdx`. -/
def quote_to_polars_df_from_series_v1 (quote : Quotes) : Except PolarsError DataFrame :=
  let l := quote.instruments
  let len := l.length
  DataFrame.new
    [Series.ofStrings "symbol" (fillIdx (List.replicate len "") l (fun p => p.1)),
     Series.ofU64 "instrument_token"
       (fillIdx (List.replicate len 0) l (fun p => p.2.instrument_token)),
     Series.ofStrings "timestamp" (fillIdx (List.replicate len "") l (fun p => p.2.timestamp)),
     Series.ofStrings "last_trade_time"
       (fillIdx (List.replicate len "") l (fun p => p.2.last_trade_time)),
     Series.ofF64 "last_price" (fillIdx (List.replicate len 0) l (fun p => p.2.last_price)),
     Series.ofU64 "last_quantity"
       (fillIdx (List.replicate len 0) l (fun p => p.2.last_quantity)),
     Series.ofU64 "buy_quantity" (fillIdx (List.replicate len 0) l (fun p => p.2.buy_quantity)),
     Series.ofU64 "sell_quantity"
       (fillIdx (List.replicate len 0) l (fun p => p.2.sell_quantity)),
     Series.ofU64 "volume" (fillIdx (List.replicate len 0) l (fun p => p.2.volume)),
     Series.ofF64 "average_price"
       (fillIdx (List.replicate len 0) l (fun p => p.2.average_price)),
     Series.ofU64 "oi" (fillIdx (List.replicate len 0) l (fun p => p.2.oi)),
     Series.ofU64 "oi_day_high" (fillIdx (List.replicate len 0) l (fun p => p.2.oi_day_high)),
     Series.ofU64 "oi_day_low" (fillIdx (List.replicate len 0) l (fun p => p.2.oi_day_low)),
     Series.ofF64 "net_change" (fillIdx (List.replicate len 0) l (fun p => p.2.net_change)),
     Series.ofF64 "lower_circuit_limit"
       (fillIdx (List.replicate len 0) l (fun p => p.2.lower_circuit_limit)),
     Series.ofF64 "upper_circuit_limit"
       (fillIdx (List.replicate len 0) l (fun p => p.2.upper_circuit_limit)),
     Series.ofF64 "open" (fillIdx (List.replicate len 0) l (fun p => p.2.ohlc.open_)),
     Series.ofF64 "high" (fillIdx (List.replicate len 0) l (fun p => p.2.ohlc.high)),
     Series.ofF64 "low" (fillIdx (List.replicate len 0) l (fun p => p.2.ohlc.low)),
     Series.ofF64 "close" (fillIdx (List.replicate len 0) l (fun p => p.2.ohlc.close))]

/-- Strategy 4, generic-value staging (`quote_to_polars_df_from_series_v2`,
lib.rs lines 356-510): stage every field as an `AnyValue` in a 20 x len buffer
initialised with `AnyValue::Null` during one enumerated pass (embedded per
buffer row via `fillIdx`), then convert each staged buffer to a concretely
typed series against the declared dtype with
`Series::from_any_values_and_dtype(.., strict = true)`, and assemble. -/
def quote_to_polars_df_from_series_v2 (quote : Quotes) : Except PolarsError DataFrame := do
  let l := quote.instruments
  let len := l.length
  let buf0 := fillIdx (List.replicate len Value.null) l (fun p => Value.str p.1)
  let buf1 := fillIdx (List.replicate len Value.null) l (fun p => Value.u64 p.2.instrument_token)
  let buf2 := fillIdx (List.replicate len Value.null) l (fun p => Value.str p.2.timestamp)
  let buf3 := fillIdx (List.replicate len Value.null) l (fun p => Value.str p.2.last_trade_time)
  let buf4 := fillIdx (List.replicate len Value.null) l (fun p => Value.f64 p.2.last_price)
  let buf5 := fillIdx (List.replicate len Value.null) l (fun p => Value.u64 p.2.last_quantity)
  let buf6 := fillIdx (List.replicate len Value.null) l (fun p => Value.u64 p.2.buy_quantity)
  let buf7 := fillIdx (List.replicate len Value.null) l (fun p => Value.u64 p.2.sell_quantity)
  let buf8 := fillIdx (List.replicate len Value.null) l (fun p => Value.u64 p.2.volume)
  let buf9 := fillIdx (List.replicate len Value.null) l (fun p => Value.f64 p.2.average_price)
  let buf10 := fillIdx (List.replicate len Value.null) l (fun p => Value.u64 p.2.oi)
  let buf11 := fillIdx (List.replicate len Value.null) l (fun p => Value.u64 p.2.oi_day_high)
  let buf12 := fillIdx (List.replicate len Value.null) l (fun p => Value.u64 p.2.oi_day_low)
  let buf13 := fillIdx (List.replicate len Value.null) l (fun p => Value.f64 p.2.net_change)
  let buf14 :=
    fillIdx (List.replicate len Value.null) l (fun p => Value.f64 p.2.lower_circuit_limit)
  let buf15 :=
    fillIdx (List.replicate len Value.null) l (fun p => Value.f64 p.2.upper_circuit_limit)
  let buf16 := fillIdx (List.replicate len Value.null) l (fun p => Value.f64 p.2.ohlc.open_)
  let buf17 := fillIdx (List.replicate len Value.null) l (fun p => Value.f64 p.2.ohlc.high)
  let buf18 := fillIdx (List.replicate len Value.null) l (fun p => Value.f64 p.2.ohlc.low)
  let buf19 := fillIdx (List.replicate len Value.null) l (fun p => Value.f64 p.2.ohlc.close)
  let s0 ← Series.fromAnyValuesAndDtype "symbol" buf0 .string
  let s1 ← Series.fromAnyValuesAndDtype "instrument_token" buf1 .uint64
  let s2 ← Series.fromAnyValuesAndDtype "timestamp" buf2 .string
  let s3 ← Series.fromAnyValuesAndDtype "last_trade_time" buf3 .string
  let s4 ← Series.fromAnyValuesAndDtype "last_price" buf4 .float64
  let s5 ← Series.fromAnyValuesAndDtype "last_quantity" buf5 .uint64
  let s6 ← Series.fromAnyValuesAndDtype "buy_quantity" buf6 .uint64
  let s7 ← Series.fromAnyValuesAndDtype "sell_quantity" buf7 .uint64
  let s8 ← Series.fromAnyValuesAndDtype "volume" buf8 .uint64
  let s9 ← Series.fromAnyValuesAndDtype "average_price" buf9 .float64
  let s10 ← Series.fromAnyValuesAndDtype "oi" buf10 .uint64
  let s11 ← Series.fromAnyValuesAndDtype "oi_day_high" buf11 .uint64
  let s12 ← Series.fromAnyValuesAndDtype "oi_day_low" buf12 .uint64
  let s13 ← Series.fromAnyValuesAndDtype "net_change" buf13 .float64
  let s14 ← Series.fromAnyValuesAndDtype "lower_circuit_limit" buf14 .float64
  let s15 ← Series.fromAnyValuesAndDtype "upper_circuit_limit" buf15 .float64
  let s16 ← Series.fromAnyValuesAndDtype "open" buf16 .float64
  let s17 ← Series.fromAnyValuesAndDtype "high" buf17 .float64
  let s18 ← Series.fromAnyValuesAndDtype "low" buf18 .float64
  let s19 ← Series.fromAnyValuesAndDtype "close" buf19 .float64
  DataFrame.new
    [s0, s1, s2, s3, s4, s5, s6, s7, s8, s9, s10, s11, s12, s13, s14, s15, s16, s17, s18, s19]

/-- Strategy 5, placeholder series plus indexed-write scratch
(`quote_to_polars_df_from_series_v3`, lib.rs lines 512-614): push 20
placeholder series, push `len` default values into every scratch vector (the
same pre-sizing as strategy 3), run the enumerated indexed-write pass, then
overwrite the 20 series-buffer slots in place before `DataFrame::new`. -/
def quote_to_polars_df_from_series_v3 (quote : Quotes) : Except PolarsError DataFrame :=
  let l := quote.instruments
  let len := l.length
  let series_buf0 : List Series :=
    List.replicate 20 (Series.ofU64 "symbol" (List.replicate len 0))
  let series_buf := fillIdx series_buf0
    [Series.ofStrings "symbol" (fillIdx (List.replicate len "") l (fun p => p.1)),
     Series.ofU64 "instrument_token"
       (fillIdx (List.replicate len 0) l (fun p => p.2.instrument_token)),
     Series.ofStrings "timestamp" (fillIdx (List.replicate len "") l (fun p => p.2.timestamp)),
     Series.ofStrings "last_trade_time"
       (fillIdx (List.replicate len "") l (fun p => p.2.last_trade_time)),
     Series.ofF64 "last_price" (fillIdx (List.replicate len 0) l (fun p => p.2.last_price)),
     Series.ofU64 "last_quantity"
       (fillIdx (List.replicate len 0) l (fun p => p.2.last_quantity)),
     Series.ofU64 "buy_quantity" (fillIdx (List.replicate len 0) l (fun p => p.2.buy_quantity)),
     Series.ofU64 "sell_quantity"
       (fillIdx (List.replicate len 0) l (fun p => p.2.sell_quantity)),
     Series.ofU64 "volume" (fillIdx (List.replicate len 0) l (fun p => p.2.volume)),
     Series.ofF64 "average_price"
       (fillIdx (List.replicate len 0) l (fun p => p.2.average_price)),
     Series.ofU64 "oi" (fillIdx (List.replicate len 0) l (fun p => p.2.oi)),
     Series.ofU64 "oi_day_high" (fillIdx (List.replicate len 0) l (fun p => p.2.oi_day_high)),
     Series.ofU64 "oi_day_low" (fillIdx (List.replicate len 0) l (fun p => p.2.oi_day_low)),
     Series.ofF64 "net_change" (fillIdx (List.replicate len 0) l (fun p => p.2.net_change)),
     Series.ofF64 "lower_circuit_limit"
       (fillIdx (List.replicate len 0) l (fun p => p.2.lower_circuit_limit)),
     Series.ofF64 "upper_circuit_limit"
       (fillIdx (List.replicate len 0) l (fun p => p.2.upper_circuit_limit)),
     Series.ofF64 "open" (fillIdx (List.replicate len 0) l (fun p => p.2.ohlc.open_)),
     Series.ofF64 "high" (fillIdx (List.replicate len 0) l (fun p => p.2.ohlc.high)),
     Series.ofF64 "low" (fillIdx (List.replicate len 0) l (fun p => p.2.ohlc.low)),
     Series.ofF64 "close" (fillIdx (List.replicate len 0) l (fun p => p.2.ohlc.close))]
    (fun s => s)
  DataFrame.new series_buf

/-- Strategy 6, row-then-transpose (`quote_to_polars_df_from_rows_cols`,
lib.rs lines 650-704): build one schema-aligned `Row` of `AnyValue` cells per
map entry in one pass, then `DataFrame::from_rows_and_schema` against the
declared schema. -/
def quote_to_polars_df_from_rows_cols (quote : Quotes) : Except PolarsError DataFrame :=
  let dfbuf : List Row := quote.instruments.map (fun p =>
    [Value.str p.1, Value.u64 p.2.instrument_token, Value.str p.2.timestamp,
     Value.str p.2.last_trade_time, Value.f64 p.2.last_price, Value.u64 p.2.last_quantity,
     Value.u64 p.2.buy_quantity, Value.u64 p.2.sell_quantity, Value.u64 p.2.volume,
     Value.f64 p.2.average_price, Value.u64 p.2.oi, Value.u64 p.2.oi_day_high,
     Value.u64 p.2.oi_day_low, Value.f64 p.2.net_change, Value.f64 p.2.lower_circuit_limit,
     Value.f64 p.2.upper_circuit_limit, Value.f64 p.2.ohlc.open_, Value.f64 p.2.ohlc.high,
     Value.f64 p.2.ohlc.low, Value.f64 p.2.ohlc.close])
  DataFrame.fromRowsAndSchema dfbuf schemaDef

theorem cols_eq (l : List (String × QuotesData)) : finalSeries l = canonCols l := by
  simp [finalSeries, canonCols, Series.ofStrings, Series.ofU64, Series.ofF64, List.map_map,
    Function.comp]

theorem raghu_canon (q : Quotes) :
    quote_to_polars_df_from_series_raghu q = .ok (canonDF q.instruments) := by
  have h : quote_to_polars_df_from_series_raghu q = DataFrame.new (finalSeries q.instruments) :=
    rfl
  rw [h, cols_eq, new_canon]

theorem v0_canon (q : Quotes) :
    quote_to_polars_df_from_series_v0 q = .ok (canonDF q.instruments) := by
  show DataFrame.new
      (fillIdx (List.replicate 20 (Series.ofU64 "symbol" (List.replicate q.instruments.length 0)))
        (finalSeries q.instruments) (fun s => s)) = _
  rw [fillIdx_full _ _ _ (by simp [finalSeries]), List.map_id', cols_eq, new_canon]

theorem fillIdx_replicate (l : List β) (d : α) (f : β → α) :
    fillIdx (List.replicate l.length d) l f = l.map f :=
  fillIdx_full _ _ _ (by simp)

theorem v1_canon (q : Quotes) :
    quote_to_polars_df_from_series_v1 q = .ok (canonDF q.instruments) := by
  simp only [quote_to_polars_df_from_series_v1, fillIdx_replicate]
  exact raghu_canon q

theorem v3_canon (q : Quotes) :
    quote_to_polars_df_from_series_v3 q = .ok (canonDF q.instruments) := by
  simp only [quote_to_polars_df_from_series_v3, fillIdx_replicate]
  rw [fillIdx_full _ _ _ (by simp), List.map_id']
  exact raghu_canon q

theorem mapM_option_of_some {α : Type} (g : α → Option α) (xs : List α)
    (h : ∀ x ∈ xs, g x = some x) : xs.mapM g = some xs := by
  induction xs with
  | nil => rfl
  | cons a as ih =>
    rw [List.mapM_cons, h a (by simp), ih (fun x hx => h x (by simp [hx]))]
    rfl

theorem fromAny_ok (nm : String) (dt : DType) (vals : List Value)
    (h : ∀ v ∈ vals, coerceStrict v dt = some v) :
    Series.fromAnyValuesAndDtype nm vals dt = .ok ⟨nm, dt, vals⟩ := by
  rw [Series.fromAnyValuesAndDtype, mapM_option_of_some _ _ h]

theorem fromAny_str (nm : String) (l : List (String × QuotesData))
    (g : String × QuotesData → String) :
    Series.fromAnyValuesAndDtype nm (l.map (fun p => Value.str (g p))) .string =
      .ok ⟨nm, .string, l.map (fun p => Value.str (g p))⟩ := by
  refine fromAny_ok _ _ _ ?_
  rintro v hv
  obtain ⟨p, -, rfl⟩ := List.mem_map.1 hv
  rfl

theorem fromAny_u64 (nm : String) (l : List (String × QuotesData))
    (g : String × QuotesData → Nat) :
    Series.fromAnyValuesAndDtype nm (l.map (fun p => Value.u64 (g p))) .uint64 =
      .ok ⟨nm, .uint64, l.map (fun p => Value.u64 (g p))⟩ := by
  refine fromAny_ok _ _ _ ?_
  rintro v hv
  obtain ⟨p, -, rfl⟩ := List.mem_map.1 hv
  rfl

theorem fromAny_f64 (nm : String) (l : List (String × QuotesData))
    (g : String × QuotesData → F64) :
    Series.fromAnyValuesAndDtype nm (l.map (fun p => Value.f64 (g p))) .float64 =
      .ok ⟨nm, .float64, l.map (fun p => Value.f64 (g p))⟩ := by
  refine fromAny_ok _ _ _ ?_
  rintro v hv
  obtain ⟨p, -, rfl⟩ := List.mem_map.1 hv
  rfl

theorem except_bind_ok {α β : Type} (a : α) (f : α → Except PolarsError β) :
    (Except.ok a >>= f : Except PolarsError β) = f a := rfl

theorem v2_canon (q : Quotes) :
    quote_to_polars_df_from_series_v2 q = .ok (canonDF q.instruments) := by
  simp only [quote_to_polars_df_from_series_v2, fillIdx_replicate, fromAny_str, fromAny_u64,
    fromAny_f64, except_bind_ok]
  exact new_canon q.instruments

theorem rows_mapM_col (l : List (String × QuotesData)) (j : Nat) (dt : DType)
    (cell : String × QuotesData → Value)
    (hc : ∀ p : String × QuotesData,
      coerceStrict ((mkRow p).getD j Value.null) dt = some (cell p)) :
    (l.map mkRow).mapM (fun r =>
      match coerceStrict (r.getD j Value.null) dt with
      | some v => Except.ok v
      | none => Except.error PolarsError.typeMismatch) = Except.ok (l.map cell) := by
  induction l with
  | nil => rfl
  | cons a as ih =>
    have ha : (match coerceStrict ((mkRow a).getD j Value.null) dt with
        | some v => Except.ok v
        | none => Except.error PolarsError.typeMismatch) = Except.ok (cell a) := by
      simp only [hc a]
    rw [List.map_cons, List.mapM_cons, ha, except_bind_ok, ih, except_bind_ok]
    rfl

theorem buildCols_canon (l : List (String × QuotesData)) :
    buildCols (l.map mkRow) schemaDef 0 = .ok (canonCols l) := by
  have h0 := rows_mapM_col l 0 DType.string (fun p => Value.str p.1) (fun p => rfl)
  have h1 := rows_mapM_col l 1 DType.uint64 (fun p => Value.u64 p.2.instrument_token)
    (fun p => rfl)
  have h2 := rows_mapM_col l 2 DType.string (fun p => Value.str p.2.timestamp) (fun p => rfl)
  have h3 := rows_mapM_col l 3 DType.string (fun p => Value.str p.2.last_trade_time)
    (fun p => rfl)
  have h4 := rows_mapM_col l 4 DType.float64 (fun p => Value.f64 p.2.last_price) (fun p => rfl)
  have h5 := rows_mapM_col l 5 DType.uint64 (fun p => Value.u64 p.2.last_quantity)
    (fun p => rfl)
  have h6 := rows_mapM_col l 6 DType.uint64 (fun p => Value.u64 p.2.buy_quantity)
    (fun p => rfl)
  have h7 := rows_mapM_col l 7 DType.uint64 (fun p => Value.u64 p.2.sell_quantity)
    (fun p => rfl)
  have h8 := rows_mapM_col l 8 DType.uint64 (fun p => Value.u64 p.2.volume) (fun p => rfl)
  have h9 := rows_mapM_col l 9 DType.float64 (fun p => Value.f64 p.2.average_price)
    (fun p => rfl)
  have h10 := rows_mapM_col l 10 DType.uint64 (fun p => Value.u64 p.2.oi) (fun p => rfl)
  have h11 := rows_mapM_col l 11 DType.uint64 (fun p => Value.u64 p.2.oi_day_high)
    (fun p => rfl)
  have h12 := rows_mapM_col l 12 DType.uint64 (fun p => Value.u64 p.2.oi_day_low)
    (fun p => rfl)
  have h13 := rows_mapM_col l 13 DType.float64 (fun p => Value.f64 p.2.net_change)
    (fun p => rfl)
  have h14 := rows_mapM_col l 14 DType.float64 (fun p => Value.f64 p.2.lower_circuit_limit)
    (fun p => rfl)
  have h15 := rows_mapM_col l 15 DType.float64 (fun p => Value.f64 p.2.upper_circuit_limit)
    (fun p => rfl)
  have h16 := rows_mapM_col l 16 DType.float64 (fun p => Value.f64 p.2.ohlc.open_)
    (fun p => rfl)
  have h17 := rows_mapM_col l 17 DType.float64 (fun p => Value.f64 p.2.ohlc.high)
    (fun p => rfl)
  have h18 := rows_mapM_col l 18 DType.float64 (fun p => Value.f64 p.2.ohlc.low)
    (fun p => rfl)
  have h19 := rows_mapM_col l 19 DType.float64 (fun p => Value.f64 p.2.ohlc.close)
    (fun p => rfl)
  simp only [schemaDef, buildCols, Nat.reduceAdd, h0, h1, h2, h3, h4, h5, h6, h7, h8, h9, h10,
    h11, h12, h13, h14, h15, h16, h17, h18, h19, except_bind_ok]
  rfl

theorem rows_cols_canon (q : Quotes) :
    quote_to_polars_df_from_rows_cols q = .ok (canonDF q.instruments) := by
  show DataFrame.fromRowsAndSchema (q.instruments.map mkRow) schemaDef = _
  rw [DataFrame.fromRowsAndSchema, buildCols_canon, except_bind_ok]
  exact new_canon q.instruments

/-- The list of all materializer strategy functions exposed by the engine. -/
def strategies : List (Quotes → Except PolarsError DataFrame) :=
  [quote_to_polars_df_from_series_raghu, quote_to_polars_df_from_series_v0,
   quote_to_polars_df_from_series_v1, quote_to_polars_df_from_series_v2,
   quote_to_polars_df_from_series_v3, quote_to_polars_df_from_rows_cols]

/-- The coercion-free strategies, which stage fields in natively typed scratch
storage (every strategy except generic-value staging and row-then-transpose). -/
def coercionFreeStrategies : List (Quotes → Except PolarsError DataFrame) :=
  [quote_to_polars_df_from_series_raghu, quote_to_polars_df_from_series_v0,
   quote_to_polars_df_from_series_v1, quote_to_polars_df_from_series_v3]

theorem strategy_canon :
    ∀ f ∈ strategies, ∀ q : Quotes, f q = .ok (canonDF q.instruments) := by
  intro f hf q
  simp only [strategies, List.mem_cons, List.not_mem_nil, or_false] at hf
  rcases hf with rfl | rfl | rfl | rfl | rfl | rfl
  · exact raghu_canon q
  · exact v0_canon q
  · exact v1_canon q
  · exact v2_canon q
  · exact v3_canon q
  · exact rows_cols_canon q

theorem coercion_free_canon :
    ∀ f ∈ coercionFreeStrategies, ∀ q : Quotes, f q = .ok (canonDF q.instruments) := by
  intro f hf q
  simp only [coercionFreeStrategies, List.mem_cons, List.not_mem_nil, or_false] at hf
  rcases hf with rfl | rfl | rfl | rfl
  · exact raghu_canon q
  · exact v0_canon q
  · exact v1_canon q
  · exact v3_canon q

/-- Row `i` of a table: the `i`-th cell of each column, in column order. -/
def DataFrame.rowAt (df : DataFrame) (i : Nat) : Row :=
  df.columns.map (fun s => s.values.getD i Value.null)

/-- All rows of a table, in row order (the row-major transpose of the columns). -/
def DataFrame.rows (df : DataFrame) : List Row :=
  (List.range df.height).map df.rowAt

theorem height_canon (l : List (String × QuotesData)) : (canonDF l).height = l.length := by
  simp [DataFrame.height, canonDF, canonCols]

theorem rowAt_canon (l : List (String × QuotesData)) (i : Nat) (h : i < l.length) :
    (canonDF l).rowAt i = mkRow (l.getD i default) := by
  simp [DataFrame.rowAt, canonDF, canonCols, mkRow, recordCells, List.getD_eq_getElem?_getD,
    List.getElem?_map, List.getElem?_eq_getElem, h]

theorem rows_canon (l : List (String × QuotesData)) : (canonDF l).rows = l.map mkRow := by
  unfold DataFrame.rows
  rw [height_canon]
  apply List.ext_getElem?
  intro i
  by_cases h : i < l.length
  · rw [List.getElem?_map, List.getElem?_range h, Option.map_some', rowAt_canon l i h,
      List.getElem?_map, List.getElem?_eq_getElem h, Option.map_some']
    have : l.getD i default = l[i] := by
      simp [List.getD_eq_getElem?_getD, List.getElem?_eq_getElem, h]
    rw [this]
  · have h1 : l.length ≤ i := by omega
    rw [List.getElem?_eq_none (by simpa using h1), List.getElem?_eq_none (by simpa using h1)]

/-- The Typed Table invariant of the spec: all columns share one length, there
are as many columns as schema entries, and column `i` carries the `i`-th schema
name and dtype. -/
def typedTableInv (df : DataFrame) : Prop :=
  (∀ i j, i < df.columns.length → j < df.columns.length →
    (df.columns.getD i default).values.length = (df.columns.getD j default).values.length) ∧
  df.columns.length = schemaDef.length ∧
  (∀ i, i < df.columns.length →
    (df.columns.getD i default).name = (schemaDef.getD i default).1 ∧
    (df.columns.getD i default).dtype = (schemaDef.getD i default).2)

theorem canon_col_length (l : List (String × QuotesData)) (i : Nat) (hi : i < 20) :
    ((canonDF l).columns.getD i default).values.length = l.length := by
  interval_cases i <;> simp [canonDF, canonCols, List.getD]

theorem canon_inv (l : List (String × QuotesData)) : typedTableInv (canonDF l) := by
  have hlen : (canonDF l).columns.length = 20 := by simp [canonDF, canonCols]
  refine ⟨?_, by rw [hlen]; rfl, ?_⟩
  · intro i j hi hj
    rw [canon_col_length l i (hlen ▸ hi), canon_col_length l j (hlen ▸ hj)]
  · intro i hi
    have hi20 : i < 20 := hlen ▸ hi
    interval_cases i <;> exact ⟨rfl, rfl⟩

/-- `HashMap` key lookup on the association-list embedding. -/
def lookupKey : List (String × QuotesData) → String → Option QuotesData
  | [], _ => none
  | (k, v) :: rest, key => if key = k then some v else lookupKey rest key

theorem lookupKey_of_nodup (l : List (String × QuotesData))
    (hn : (l.map Prod.fst).Nodup) (i : Nat) (h : i < l.length) :
    lookupKey l (l.getD i default).1 = some (l.getD i default).2 := by
  induction l generalizing i with
  | nil => simp at h
  | cons a as ih =>
    rw [List.map_cons, List.nodup_cons] at hn
    cases i with
    | zero => simp [lookupKey]
    | succ n =>
      have hlt : n < as.length := by simpa using h
      have hgd : as.getD n default = as[n] := by
        simp [List.getD_eq_getElem?_getD, List.getElem?_eq_getElem, hlt]
      have hne : (as.getD n default).1 ≠ a.1 := by
        intro he
        exact hn.1 (he ▸ List.mem_map_of_mem Prod.fst (hgd ▸ List.getElem_mem hlt))
      rw [List.getD_cons_succ]
      show (if (as.getD n default).1 = a.1 then some a.2
        else lookupKey as (as.getD n default).1) = some (as.getD n default).2
      rw [if_neg hne]
      exact ih hn.2 n hlt

/-- `quote_to_polars_df_from_json` (lib.rs lines 616-648): builds the declared
schema, then runs the polars `JsonReader` pipeline (schema inference over a
100-row sample, schema overwrite, `finish()`).  The reader pipeline itself is
polars library code outside this repository, so its outcome is abstracted as
the input `finished`; the function then propagates an error with `?` and wraps
a successful frame in `Ok(Some(..))`. -/
def quote_to_polars_df_from_json (finished : Except PolarsError DataFrame) :
    Except PolarsError (Option DataFrame) :=
  match finished with
  | .ok df => .ok (some df)
  | .error e => .error e

/-- A scalar JSON value as seen by schema inference. -/
inductive JsonScalar where
  | jnull
  | jbool (b : Bool)
  | jint (n : Int)
  | jfloat (x : F64)
  | jstr (s : String)
  deriving DecidableEq, Inhabited

/-- One flat JSON quote row: field name to scalar. -/
abbrev JsonRow := List (String × JsonScalar)

/-- A JSON document: an array of flat quote rows. -/
abbrev JsonDoc := List JsonRow

/-- Assoc lookup of a field inside one JSON row. -/
def lookupScalar : JsonRow → String → Option JsonScalar
  | [], _ => none
  | (k, v) :: rest, key => if key = k then some v else lookupScalar rest key

/-- Assoc lookup of a dtype inside a schema. -/
def lookupDType : List (String × DType) → String → Option DType
  | [], _ => none
  | (k, v) :: rest, key => if key = k then some v else lookupDType rest key

/-- The dtype a JSON scalar infers to. -/
def inferScalarDType : JsonScalar → DType
  | .jnull => .null
  | .jbool _ => .boolean
  | .jint _ => .int64
  | .jfloat _ => .float64
  | .jstr _ => .string

/-- Modelled from the spec: the bounded-prefix schema inference of the polars
`JsonReader` (`infer_schema_len(Some(100))`), which is library code outside
this repository.  The inferred dtype of a field is read off the first sampled
row (among the first 100) that carries the field. -/
def inferredDTypeIn (doc : JsonDoc) (name : String) : DType :=
  match (doc.take 100).findSome? (fun r => lookupScalar r name) with
  | some v => inferScalarDType v
  | none => .null

/-- First-seen-order deduplication of field names, with an accumulator of the
names already seen. -/
def dedupFirst (seen : List String) : List String → List String
  | [] => []
  | x :: xs =>
    if seen.contains x then dedupFirst seen xs
    else x :: dedupFirst (x :: seen) xs

/-- Modelled from the spec: the field list the bounded-prefix inference
discovers — every field name occurring in the first 100 sampled rows, in
first-seen order. -/
def inferredFieldNames (doc : JsonDoc) : List String :=
  dedupFirst [] ((doc.take 100).flatMap (fun r => r.map Prod.fst))

/-- Modelled from the spec: `with_schema_overwrite(&schema)` — the decoded
schema keeps the inferred field list, but every field that also occurs in the
declared Schema Definition takes the declared dtype; only fields unknown to
the declared schema keep their inferred dtype. -/
def decodedSchema (doc : JsonDoc) : List (String × DType) :=
  (inferredFieldNames doc).map (fun nm =>
    (nm, match lookupDType schemaDef nm with
         | some t => t
         | none => inferredDTypeIn doc nm))

theorem lookupDType_map_self (g : String → DType) (name : String) :
    ∀ names : List String, name ∈ names →
      lookupDType (names.map (fun nm => (nm, g nm))) name = some (g name) := by
  intro names hmem
  induction names with
  | nil => simp at hmem
  | cons a as ih =>
    rw [List.map_cons]
    show (if name = a then some (g a) else lookupDType (as.map (fun nm => (nm, g nm))) name) = _
    by_cases h : name = a
    · rw [if_pos h, h]
    · rw [if_neg h]
      exact ih (by rcases List.mem_cons.1 hmem with h1 | h1; exact absurd h1 h; exact h1)

/-- The serde JSON integer decode for a `u64`-typed field, determined by the
declared field type `last_quantity: u64` of `QuotesData` (lib.rs line 41): a
negative or too-large integer is rejected. -/
def decodeU64Field (n : Int) : Except String Nat :=
  if 0 ≤ n ∧ n < 2 ^ 64 then .ok n.toNat else .error "invalid value: out of range for u64"

/-- The serde JSON integer decode for an `i64`-typed field, determined by the
declared field type `last_quantity: i64` of `QuoteData` (lib.rs line 70):
any integer in the signed 64-bit range is accepted, negatives included. -/
def decodeI64Field (n : Int) : Except String Int :=
  if -(2 ^ 63) ≤ n ∧ n < 2 ^ 63 then .ok n else .error "invalid value: out of range for i64"

/-- `optional_naive_date_time_from_str::deserialize` (lib.rs lines 745-762),
the custom deserializer run on a *present* field value: the attempt to
deserialize that value as a `String` is modelled by an `Option String` —
`none` when the present value is not a string (e.g. JSON `null`), so that the
inner deserialization errors and is caught by the `match` in the source; a
string is parsed with the chrono format `%Y-%m-%d %H:%M:%S`, abstracted as the
`parse` parameter since chrono is library code.  A caught inner failure yields
`Ok(None)`, an unparsable string yields an error, a parsable one yields
`Ok(Some(..))`.  Note this function only runs when the field key is present:
the serde-derived `QuoteData` impl handles a genuinely absent key itself (see
`quoteDataOptDTField`). -/
def optionalNaiveDateTimeFromStr (parse : String → Option NaiveDateTime)
    (maybeStr : Option String) : Except String (Option NaiveDateTime) :=
  match maybeStr with
  | some s =>
    match parse s with
    | some dt => .ok (some dt)
    | none => .error "parse error"
  | none => .ok none

/-- `String::deserialize` on a present JSON value: succeeds only on a JSON
string; its failure on any other present value is what the tolerant wrapper
catches. -/
def scalarAsString : JsonScalar → Option String
  | .jstr s => some s
  | _ => none

/-- The serde-derived decode of the `timestamp` / `last_trade_time` field of
`QuoteData` (lib.rs lines 59-68): the field carries
`#[serde(with = "optional_naive_date_time_from_str")]` and no
`#[serde(default)]`, so when the key is genuinely absent the derived impl
returns a missing-field error without ever invoking the tolerant wrapper;
when the key is present the wrapper runs on its value. -/
def quoteDataOptDTField (parse : String → Option NaiveDateTime)
    (field : Option JsonScalar) : Except String (Option NaiveDateTime) :=
  match field with
  | none => .error "missing field"
  | some v => optionalNaiveDateTimeFromStr parse (scalarAsString v)

/-- The serde-derived serialization of the same field
(`skip_serializing_if = "Option::is_none"`, lib.rs lines 59-68, with the
serializer of lib.rs lines 764-777): a `None` value omits the key entirely
(`none` here), a `Some` value emits the formatted string; chrono's formatter
is abstracted as `fmt`. -/
def serializeOptDTField (fmt : NaiveDateTime → String) (v : Option NaiveDateTime) :
    Option JsonScalar :=
  match v with
  | some dt => some (.jstr (fmt dt))
  | none => none

/-- The concrete scenario of the spec (NSE:INFY, token 408065); float payloads
are arbitrary `F64` bit patterns since the engine only copies them. -/
def sampleRecordA : QuotesData :=
  { instrument_token := 408065, timestamp := "2021-06-08 15:45:56",
    last_trade_time := "2021-06-08 15:45:52", last_price := 141295, last_quantity := 5,
    buy_quantity := 0, sell_quantity := 5191, volume := 7360198, average_price := 141247,
    oi := 0, oi_day_high := 0, oi_day_low := 0, net_change := 0, lower_circuit_limit := 12507,
    upper_circuit_limit := 15286, ohlc := ⟨13960, 142175, 139555, 138965⟩,
    depth := ⟨[⟨0, 0, 0⟩], [⟨141295, 5191, 13⟩]⟩ }

/-- A second instrument so that permuted iteration orders are non-trivial. -/
def sampleRecordB : QuotesData :=
  { instrument_token := 2953217, timestamp := "2021-06-08 15:45:58",
    last_trade_time := "2021-06-08 15:45:57", last_price := 325510, last_quantity := 10,
    buy_quantity := 40, sell_quantity := 21, volume := 2214018, average_price := 325354,
    oi := 0, oi_day_high := 0, oi_day_low := 0, net_change := 1, lower_circuit_limit := 292960,
    upper_circuit_limit := 358050, ohlc := ⟨32550, 32652, 32450, 32505⟩, depth := ⟨[], []⟩ }

/-- A two-instrument map in one iteration order. -/
def sampleQuotesA : Quotes := ⟨[("NSE:INFY", sampleRecordA), ("NSE:TCS", sampleRecordB)]⟩

/-- The same map observed in the other iteration order. -/
def sampleQuotesB : Quotes := ⟨[("NSE:TCS", sampleRecordB), ("NSE:INFY", sampleRecordA)]⟩

/-- The empty map. -/
def emptyQuotes : Quotes := ⟨[]⟩

/-- A one-row JSON document whose `last_price` field looks like an integer, so
its inferred dtype (int64) differs from the declared dtype (float64). -/
def sampleJsonDoc : JsonDoc :=
  [[("symbol", .jstr "NSE:INFY"), ("last_price", .jint 1412), ("volume", .jint 7360198)]]

/-- C1: for every input `Quotes` mapping, all materializer strategy functions
(`quote_to_polars_df_from_series_raghu`, `_v0`, `_v1`, `_v2`, `_v3` and
`quote_to_polars_df_from_rows_cols`) return tables with identical column
names, identical column dtypes, identical row count, and the same rows up to
permutation (only row order, induced by map iteration order, may differ). -/
theorem C1_cross_strategy_equivalence :
    ∀ f ∈ strategies, ∀ g ∈ strategies, ∀ q1 q2 : Quotes,
      q1.instruments.Perm q2.instruments →
      ∃ df1 df2, f q1 = .ok df1 ∧ g q2 = .ok df2 ∧
        df1.columns.map Series.name = df2.columns.map Series.name ∧
        df1.columns.map Series.dtype = df2.columns.map Series.dtype ∧
        df1.height = df2.height ∧
        df1.rows.Perm df2.rows := by
  intro f hf g hg q1 q2 hperm
  refine ⟨canonDF q1.instruments, canonDF q2.instruments, strategy_canon f hf q1,
    strategy_canon g hg q2, rfl, rfl, ?_, ?_⟩
  · rw [height_canon, height_canon]
    exact hperm.length_eq
  · rw [rows_canon, rows_canon]
    exact hperm.map mkRow

/-- Witness for C1: the direct-append and row-then-transpose strategies agree
on the two-instrument sample observed under two iteration orders. -/
theorem C1_witness :
    ∃ df1 df2, quote_to_polars_df_from_series_raghu sampleQuotesA = .ok df1 ∧
      quote_to_polars_df_from_rows_cols sampleQuotesB = .ok df2 ∧
      df1.columns.map Series.name = df2.columns.map Series.name ∧
      df1.columns.map Series.dtype = df2.columns.map Series.dtype ∧
      df1.height = df2.height ∧
      df1.rows.Perm df2.rows :=
  C1_cross_strategy_equivalence _ (by simp [strategies]) _ (by simp [strategies])
    sampleQuotesA sampleQuotesB (by decide)

/-- C2: every materializer strategy returns `Ok` with one row per mapping
entry and 20 columns; in particular the empty mapping yields a 0-row,
20-column table rather than an error. -/
theorem C2_row_count_preservation :
    ∀ f ∈ strategies, ∀ q : Quotes,
      ∃ df, f q = .ok df ∧ df.height = q.instruments.length ∧ df.columns.length = 20 := by
  intro f hf q
  exact ⟨canonDF q.instruments, strategy_canon f hf q, height_canon _, by
    simp [canonDF, canonCols]⟩

/-- Witness for C2: the direct-append strategy on the empty mapping returns a
0-row, 20-column table. -/
theorem C2_witness :
    ∃ df, quote_to_polars_df_from_series_raghu emptyQuotes = .ok df ∧
      df.height = 0 ∧ df.columns.length = 20 :=
  C2_row_count_preservation _ (by simp [strategies]) emptyQuotes

/-- C3: every table any strategy returns satisfies the Typed Table invariant:
equal column lengths, exactly as many columns as the 20-entry Schema
Definition, and column `i` carrying the `i`-th declared name and dtype. -/
theorem C3_typed_table_invariant :
    ∀ f ∈ strategies, ∀ (q : Quotes) (df : DataFrame),
      f q = .ok df → typedTableInv df := by
  intro f hf q df h
  rw [strategy_canon f hf q] at h
  obtain rfl : canonDF q.instruments = df := by injection h
  exact canon_inv _

/-- Witness for C3: the table of the direct-append strategy on the
two-instrument sample satisfies the invariant. -/
theorem C3_witness : typedTableInv (canonDF sampleQuotesA.instruments) :=
  C3_typed_table_invariant _ (by simp [strategies]) sampleQuotesA _
    (raghu_canon sampleQuotesA)

/-- C4: for every strategy and mapping (with the unique keys a `HashMap`
guarantees), each row of the returned table consists of a symbol cell holding
a map key followed verbatim by the 19 field cells of the record stored under
that key. -/
theorem C4_column_alignment :
    ∀ f ∈ strategies, ∀ q : Quotes, (q.instruments.map Prod.fst).Nodup →
      ∀ df, f q = .ok df → ∀ i, i < df.height →
        ∃ k r, df.rowAt i = Value.str k :: recordCells r ∧
          lookupKey q.instruments k = some r := by
  intro f hf q hn df h i hi
  rw [strategy_canon f hf q] at h
  obtain rfl : canonDF q.instruments = df := by injection h
  rw [height_canon] at hi
  refine ⟨(q.instruments.getD i default).1, (q.instruments.getD i default).2, ?_, ?_⟩
  · rw [rowAt_canon _ _ hi]
    rfl
  · exact lookupKey_of_nodup _ hn i hi

/-- Witness for C4: row 0 of the sample table is the key "NSE:INFY" followed
by the cells of the record stored under that key. -/
theorem C4_witness :
    ∃ k r, (canonDF sampleQuotesA.instruments).rowAt 0 = Value.str k :: recordCells r ∧
      lookupKey sampleQuotesA.instruments k = some r :=
  C4_column_alignment _ (by simp [strategies]) sampleQuotesA (by decide) _
    (raghu_canon sampleQuotesA) 0 (by decide)

/-- C5: the coercion-free strategies (direct-append, placeholder-then-
overwrite, indexed-write, and v3), which stage fields in natively typed
scratch storage, return `Ok` on every input; their error branch (in
particular `TypeMismatch`) is unreachable. -/
theorem C5_coercion_free_never_fail :
    ∀ f ∈ coercionFreeStrategies, ∀ q : Quotes, ∃ df, f q = .ok df := by
  intro f hf q
  exact ⟨canonDF q.instruments, coercion_free_canon f hf q⟩

/-- Witness for C5: the placeholder-then-overwrite strategy succeeds on the
two-instrument sample. -/
theorem C5_witness : ∃ df, quote_to_polars_df_from_series_v0 sampleQuotesA = .ok df :=
  C5_coercion_free_never_fail _ (by simp [coercionFreeStrategies]) sampleQuotesA

/-- C6: every materializer strategy returns either a complete table (the full
20-column Typed Table with one row per entry) or an error, and the JSON
decoder entry point returns either `Ok(Some(table))` or an error; no partial
table is ever handed to the caller. -/
theorem C6_complete_table_or_error :
    (∀ f ∈ strategies, ∀ q : Quotes,
      (∃ df, f q = .ok df ∧ typedTableInv df ∧ df.height = q.instruments.length) ∨
      (∃ e, f q = .error e)) ∧
    (∀ finished : Except PolarsError DataFrame,
      (∃ df, quote_to_polars_df_from_json finished = .ok (some df)) ∨
      (∃ e, quote_to_polars_df_from_json finished = .error e)) := by
  constructor
  · intro f hf q
    exact Or.inl ⟨canonDF q.instruments, strategy_canon f hf q, canon_inv _, height_canon _⟩
  · intro finished
    cases finished with
    | ok df => exact Or.inl ⟨df, rfl⟩
    | error e => exact Or.inr ⟨e, rfl⟩

/-- Witness for C6: the generic-value staging strategy on the sample, and the
decoder on a successful and a failed reader outcome. -/
theorem C6_witness :
    ((∃ df, quote_to_polars_df_from_series_v2 sampleQuotesA = .ok df ∧ typedTableInv df ∧
        df.height = sampleQuotesA.instruments.length) ∨
      (∃ e, quote_to_polars_df_from_series_v2 sampleQuotesA = .error e)) ∧
    ((∃ df, quote_to_polars_df_from_json (.error .typeMismatch) = .ok (some df)) ∨
      (∃ e, quote_to_polars_df_from_json (.error .typeMismatch) = .error e)) :=
  ⟨C6_complete_table_or_error.1 _ (by simp [strategies]) sampleQuotesA,
    C6_complete_table_or_error.2 _⟩

/-- C7: the JSON-Schema decoder infers types only from a bounded prefix of at
most 100 rows, and the declared Schema Definition dtype overwrites every
inferred dtype: for any document and declared field whose inferred dtype
differs from the declared one, the decoded schema carries the declared dtype,
never the inferred one. -/
theorem C7_declared_schema_wins :
    (∀ (doc : JsonDoc) (name : String) (t : DType),
      lookupDType schemaDef name = some t →
      name ∈ inferredFieldNames doc →
      inferredDTypeIn doc name ≠ t →
      lookupDType (decodedSchema doc) name = some t) ∧
    (∀ doc : JsonDoc, decodedSchema doc = decodedSchema (doc.take 100)) := by
  constructor
  · intro doc name t hdecl hmem _hne
    have h := lookupDType_map_self
      (fun nm => match lookupDType schemaDef nm with
        | some t2 => t2
        | none => inferredDTypeIn doc nm) name (inferredFieldNames doc) hmem
    simp only [decodedSchema]
    rw [h]
    simp only [hdecl]
  · intro doc
    simp only [decodedSchema, inferredFieldNames, inferredDTypeIn, List.take_take,
      Nat.min_self]

/-- Witness for C7: on a document whose `last_price` looks like an integer
(inferred int64), the decoded schema still declares float64, and the decoded
schema only depends on the 100-row prefix. -/
theorem C7_witness :
    lookupDType (decodedSchema sampleJsonDoc) "last_price" = some DType.float64 ∧
    decodedSchema sampleJsonDoc = decodedSchema (sampleJsonDoc.take 100) :=
  ⟨C7_declared_schema_wins.1 sampleJsonDoc "last_price" DType.float64 (by decide) (by decide)
    (by decide), C7_declared_schema_wins.2 sampleJsonDoc⟩

/-- C8 claims a genuinely absent optional field (e.g. a missing timestamp) is
represented as an explicit absent marker, never a failure.  The code disagrees
at its decode boundary: with `deserialize_with` and no `serde(default)`
(lib.rs lines 59-68) the derived `QuoteData` decode returns a missing-field
error on a genuinely absent key, never invoking the tolerant wrapper and
aborting the whole decode — even though serialization omits that very key for
a `None` value, so the code rejects its own output.  The absent marker
`Ok(None)` is only reachable for a *present* non-string value such as JSON
`null`.  This theorem evaluates the embedded code at the failing input: a
`None` timestamp serializes to an omitted key, the decode of an omitted key
errors, and only a present `null` yields the marker — for every abstracted
chrono parser and formatter. -/
theorem C8_absent_field_errors :
    ∀ (parse : String → Option NaiveDateTime) (fmt : NaiveDateTime → String),
      serializeOptDTField fmt none = none ∧
      quoteDataOptDTField parse none = .error "missing field" ∧
      quoteDataOptDTField parse (some JsonScalar.jnull) = .ok none := by
  intro parse fmt
  exact ⟨rfl, rfl, rfl⟩

/-- C9: `last_quantity` is signed (i64) in the per-record decoded form
`QuoteData` and unsigned (u64) in the bulk form `QuotesData`, and both
representations are preserved at their boundaries: the i64 decode accepts any
signed-64-bit value (negatives included) that the u64 decode rejects, both
agree on the common range, and the materializers copy the bulk value verbatim
into the `last_quantity` uint64 column. -/
theorem C9_last_quantity_signedness :
    (∀ n : Int, -(2 ^ 63) ≤ n → n < 0 →
      decodeI64Field n = .ok n ∧ ∃ e, decodeU64Field n = .error e) ∧
    (∀ n : Int, 0 ≤ n → n < 2 ^ 63 →
      decodeI64Field n = .ok n ∧ decodeU64Field n = .ok n.toNat) ∧
    (∀ (q : Quotes) (df : DataFrame), quote_to_polars_df_from_series_raghu q = .ok df →
      (df.columns.getD 5 default).name = "last_quantity" ∧
      (df.columns.getD 5 default).dtype = DType.uint64 ∧
      (df.columns.getD 5 default).values =
        q.instruments.map (fun p => Value.u64 p.2.last_quantity)) := by
  refine ⟨?_, ?_, ?_⟩
  · intro n h1 h2
    refine ⟨?_, ?_⟩
    · rw [decodeI64Field, if_pos ⟨h1, h2.trans_le (by norm_num)⟩]
    · exact ⟨_, by rw [decodeU64Field, if_neg (fun hcon => absurd hcon.1 (by omega))]⟩
  · intro n h1 h2
    refine ⟨?_, ?_⟩
    · rw [decodeI64Field, if_pos ⟨by omega, h2⟩]
    · rw [decodeU64Field, if_pos ⟨h1, h2.trans_le (by norm_num)⟩]
  · intro q df h
    rw [raghu_canon q] at h
    obtain rfl : canonDF q.instruments = df := by injection h
    exact ⟨rfl, rfl, rfl⟩

/-- Witness for C9: the i64 decode accepts -5 where the u64 decode fails, both
accept 5, and the sample table's column 5 is the verbatim uint64
`last_quantity` column. -/
theorem C9_witness :
    (decodeI64Field (-5) = .ok (-5) ∧ ∃ e, decodeU64Field (-5) = .error e) ∧
    (decodeI64Field 5 = .ok 5 ∧ decodeU64Field 5 = .ok (Int.toNat 5)) ∧
    ((canonDF sampleQuotesA.instruments).columns.getD 5 default).name = "last_quantity" ∧
    ((canonDF sampleQuotesA.instruments).columns.getD 5 default).dtype = DType.uint64 ∧
    ((canonDF sampleQuotesA.instruments).columns.getD 5 default).values =
      sampleQuotesA.instruments.map (fun p => Value.u64 p.2.last_quantity) :=
  ⟨C9_last_quantity_signedness.1 (-5) (by norm_num) (by norm_num),
    C9_last_quantity_signedness.2.1 5 (by norm_num) (by norm_num),
    C9_last_quantity_signedness.2.2 sampleQuotesA _ (raghu_canon sampleQuotesA)⟩

/-- C10: although its signature allows `Ok(None)`, the JSON decoder never
produces it: for every outcome of the reader pipeline it returns either
`Ok(Some(table))` or an error. -/
theorem C10_decoder_never_ok_none :
    ∀ finished : Except PolarsError DataFrame,
      (∃ df, quote_to_polars_df_from_json finished = .ok (some df)) ∨
      (∃ e, quote_to_polars_df_from_json finished = .error e) := by
  intro finished
  cases finished with
  | ok df => exact Or.inl ⟨df, rfl⟩
  | error e => exact Or.inr ⟨e, rfl⟩
